import Mathlib

/-!
Shallow embedding of the `auto email activity creation` Odoo module
(models/mail_thread.py, models/sale_order.py, models/account_move.py,
models/res_config_settings.py, models/user_group_config.py).

The module intercepts `message_post` on several record kinds, decides
whether the posted message is an outgoing external email sent by an
enrolled user, and if so creates a `mail.activity` and immediately marks
it done, swallowing failures.

External collaborators (the ORM, the config-parameter store, the
access-control subsystem, the activity subsystem) are modelled as fields
of an `Env` record: each fallible external call is an `Except ErrKind`
value describing what that call would do.  Python exceptions are the
`Except.error` branch; an `ErrKind.accessError` corresponds to Odoo's
`AccessError`, every other exception class is `ErrKind.otherError`
(`ErrKind.validationError` is the `ValidationError` raised by the
settings constraint).  Side effects performed by the module are recorded
as a list of `Effect` values, in execution order; an external call that
raises produces no effect.
-/

/-- Kinds of Python exceptions relevant to the module's `try/except`
structure. -/
inductive ErrKind where
  | accessError
  | validationError
  | otherError
deriving DecidableEq, Repr

/-- Log levels used by the module's `_logger` calls. -/
inductive LogLevel where
  | info
  | warning
  | err
deriving DecidableEq, Repr

/-- A `res.partner` record as read by the module: id, `email`, `name`,
and the linked internal user accounts (`user_ids`). -/
structure Partner where
  pid : Nat
  email : Option String
  pname : Option String
  user_ids : List Nat
deriving DecidableEq, Repr

/-- A `mail.message.subtype` record: the module reads only `name`. -/
structure MsgSubtype where
  sname : Option String
deriving DecidableEq, Repr

/-- A `mail.message` record as read by the module.  `author_id` is the
id of the author partner (`none` models an empty recordset). -/
structure Message where
  mid : Nat
  message_type : String
  subtype_id : Option MsgSubtype
  email_from : Option String
  partner_ids : List Partner
  author_id : Option Nat
  body : Option String
deriving DecidableEq, Repr

/-- The acting user: `self.env.user`. -/
structure User where
  uid : Nat
  partner_id : Nat
  groups_id : List Nat
deriving DecidableEq, Repr

/-- An `auto.email.group.config` row (models/user_group_config.py). -/
structure GroupConfig where
  group_id : Nat
  active : Bool
deriving DecidableEq, Repr

/-- Python string truthiness for optional text fields: `None` and the
empty string are falsy. -/
def optStrVal : Option String → Option String
  | none => none
  | some s => if s = "" then none else some s

/-- `partner.email or partner.name`: the identifier appended by the
recipient loops, when truthy. -/
def partnerIdentifier (p : Partner) : Option String :=
  match optStrVal p.email with
  | some e => some e
  | none => optStrVal p.pname

/-- Values passed to `mail.activity.create` (the fields the claims
observe). -/
structure ActivityValues where
  summary : String
  note : String
  user_id : Nat
  res_id : Nat
deriving DecidableEq, Repr

/-- Side effects the module performs on shared state, in execution
order. -/
inductive Effect where
  /-- `self.env['mail.activity'].create(activity_values)` succeeded. -/
  | createActivity (v : ActivityValues)
  /-- `activity.action_done()` succeeded (mail_thread / sale / crm /
  helpdesk variants). -/
  | actionDone
  /-- account_move only: `activity_type.sudo().write({'keep_done': True})`
  on the shared `mail.mail_activity_data_email` activity-type record. -/
  | sudoWriteKeepDone
  /-- account_move only: `activity.write({'active': False, 'date_done': ...})`. -/
  | writeActivityDone
  /-- account_move only: the internal note posted as OdooBot
  (`message_post(... author_id=odoobot.partner_id ...)`). -/
  | postNote (author : Nat)
deriving DecidableEq, Repr

/-- The environment of one interception call: the triggering state plus
the behaviour of every external call the module makes. -/
structure Env where
  /-- `self.env.context.get('auto_email_activity_skip')`. -/
  ctxSkip : Bool
  user : User
  /-- the message returned by `super().message_post(**kwargs)`. -/
  superMessage : Option Message
  /-- `kwargs.get('subtype_xmlid')` (account_move). -/
  subtypeXmlid : Option String
  /-- `self._name` (mail_thread's model-affiliation gate). -/
  selfModel : String
  /-- `self.id`. -/
  selfId : Nat
  /-- `self.partner_id` (sale.order / account.move customer), `none`
  models an unset relation. -/
  recordPartner : Option Partner
  /-- `self.move_type` (account.move). -/
  moveType : String
  /-- the `auto.email.group.config` table contents. -/
  groupConfigs : List GroupConfig
  /-- when `some e`, the enrollment `search` raises `e`. -/
  searchErr : Option ErrKind
  /-- `ir.config_parameter.get_param('auto_email_activity_creation.enabled', 'True')`:
  the string it returns, or the exception it raises. -/
  configParam : Except ErrKind String
  /-- `self.check_access_rights('write')` (raises on denial). -/
  checkWriteRights : Except ErrKind Unit
  /-- `self.check_access_rule('write')`. -/
  checkWriteRule : Except ErrKind Unit
  /-- `self.env['mail.activity'].check_access_rights('create')` /
  `check_access('create')`. -/
  checkActivityCreate : Except ErrKind Unit
  /-- `self.check_access('write')` (sale.order / account.move, Odoo 18). -/
  checkAccessWrite : Except ErrKind Unit
  /-- when `some e`, `env.ref('mail.mail_activity_data_email')` raises. -/
  refErr : Option ErrKind
  /-- when `some e`, `mail.activity.create` raises. -/
  createErr : Option ErrKind
  /-- when `some e`, `activity.action_done()` (or the account_move
  archive `write`) raises. -/
  doneErr : Option ErrKind
  /-- `activity_type.keep_done` at tracking time (account_move). -/
  keepDone : Bool
  /-- when `some e`, `activity_type.sudo().write({'keep_done': True})` raises. -/
  writeKeepDoneErr : Option ErrKind
  /-- when `some e`, `env.ref('base.user_root')` or the OdooBot note
  `message_post` raises (account_move step 3). -/
  noteErr : Option ErrKind
  /-- `odoobot_user.partner_id.id`. -/
  odoobotPartnerId : Nat
deriving Repr

/-- `_user_in_configured_groups` (mail_thread variant; the sale, crm,
helpdesk and account_move copies differ only in info-level logging):
search the active `auto.email.group.config` rows, fail closed on zero
rows or on any exception (warning log), otherwise intersect the
configured group ids with the user's group ids. -/
def userInConfiguredGroups (env : Env) : Bool × List LogLevel :=
  match env.searchErr with
  | some _ => (false, [LogLevel.warning])
  | none =>
    let activeConfigs := env.groupConfigs.filter (·.active)
    if activeConfigs.isEmpty then (false, [])
    else
      let configuredIds := activeConfigs.map (·.group_id)
      (configuredIds.any (fun g => env.user.groups_id.contains g), [])

/-- `_has_required_permissions` (mail_thread / crm / helpdesk variant):
three permission calls; `AccessError` and every other exception both
yield `False`. -/
def hasRequiredPermissions (env : Env) : Bool :=
  match env.checkWriteRights with
  | .error _ => false
  | .ok _ =>
    match env.checkWriteRule with
    | .error _ => false
    | .ok _ =>
      match env.checkActivityCreate with
      | .error _ => false
      | .ok _ => true

/-- `_has_required_permissions` (sale.order / account.move variant,
Odoo 18 `check_access` syntax): two permission calls, all exceptions
yield `False`. -/
def hasRequiredPermissionsV18 (env : Env) : Bool :=
  match env.checkAccessWrite with
  | .error _ => false
  | .ok _ =>
    match env.checkActivityCreate with
    | .error _ => false
    | .ok _ => true

/-- `_is_helpdesk_model` (mail_thread). -/
def isHelpdeskModel (model_name : String) : Bool :=
  if model_name = "" then false
  else
    ["helpdesk.ticket", "helpdesk.team", "helpdesk.tag", "helpdesk.stage",
      "helpdesk.ticket.type"].contains model_name

/-- `_is_sales_model` (mail_thread). -/
def isSalesModel (model_name : String) : Bool :=
  if model_name = "" then false
  else
    ["sale.order", "sale.order.line", "sale.report", "crm.lead",
      "crm.team"].contains model_name

/-- `MailThread._is_outgoing_external_email`: email-type only, with a
sender string, authored by the current user, with recipients. -/
def mailThread_isOutgoingExternalEmail (u : User) : Option Message → Bool
  | none => false
  | some m =>
    if m.message_type ≠ "email" then false
    else if (optStrVal m.email_from).isNone then false
    else if m.author_id ≠ some u.partner_id then false
    else if m.partner_ids.isEmpty then false
    else true

/-- Rule 1 of the recipient extraction, shared verbatim by every
variant: identifiers of addressees without a linked internal account,
in addressee order. -/
def addresseeIdentifiers (m : Message) : List String :=
  m.partner_ids.filterMap (fun p =>
    if p.user_ids.isEmpty then partnerIdentifier p else none)

/-- `MailThread._get_external_recipients`: addressee-based extraction
only, `[]` when the message is absent or has no addressees. -/
def mailThread_getExternalRecipients : Option Message → List String
  | none => []
  | some m =>
    if m.partner_ids.isEmpty then []
    else addresseeIdentifiers m

/-- The activity summary built by every variant:
`_('Email sent to %s') % ', '.join(external_emails[:3]) + (', ...' if len(external_emails) > 3 else '')`. -/
def buildSummary (emails : List String) : String :=
  "Email sent to " ++ String.intercalate ", " (emails.take 3) ++
    (if emails.length > 3 then ", ..." else "")

/-- The `try` block shared by the mail_thread, sale, crm and helpdesk
variants: resolve the activity type, create the activity, mark it done;
an exception at any step is caught and the effects already performed
remain. -/
def basicTrackingEffects (env : Env) (emails : List String) (m : Message) :
    List Effect :=
  if env.refErr.isSome then []
  else
    let v : ActivityValues :=
      { summary := buildSummary emails
        note := m.body.getD ""
        user_id := env.user.uid
        res_id := env.selfId }
    if env.createErr.isSome then []
    else if env.doneErr.isSome then [Effect.createActivity v]
    else [Effect.createActivity v, Effect.actionDone]

/-- `MailThread.message_post` (models/mail_thread.py): run the host's
`message_post` first, then the gate chain, then the best-effort
activity creation.  The `Except` layer records which inputs make the
override itself raise: only a non-`AccessError` exception from the
feature-flag read escapes the gate chain's `try/except AccessError`. -/
def mailThread_messagePost (env : Env) :
    Except ErrKind (Option Message × List Effect) :=
  if env.ctxSkip then .ok (env.superMessage, [])
  else
    match env.superMessage with
    | none => .ok (env.superMessage, [])
    | some m =>
      if m.message_type ≠ "email" then .ok (env.superMessage, [])
      else
        match env.configParam with
        | .error e =>
          if e = ErrKind.accessError then .ok (env.superMessage, [])
          else .error e
        | .ok v =>
          if v ≠ "True" then .ok (env.superMessage, [])
          else if ¬ (userInConfiguredGroups env).1 then .ok (env.superMessage, [])
          else if ¬ (isHelpdeskModel env.selfModel ∨ isSalesModel env.selfModel) then
            .ok (env.superMessage, [])
          else if ¬ mailThread_isOutgoingExternalEmail env.user env.superMessage then
            .ok (env.superMessage, [])
          else if ¬ hasRequiredPermissions env then .ok (env.superMessage, [])
          else
            if (mailThread_getExternalRecipients env.superMessage).isEmpty then
              .ok (env.superMessage, [])
            else
              .ok (env.superMessage,
                basicTrackingEffects env
                  (mailThread_getExternalRecipients env.superMessage) m)

/-- Python's `sub in s` on character lists. -/
def charSub (sub : List Char) : List Char → Bool
  | [] => sub.isEmpty
  | c :: rest => sub.isPrefixOf (c :: rest) || charSub sub rest

/-- Python's `sub in s` on strings. -/
def strContainsSub (s sub : String) : Bool :=
  charSub sub.data s.data

/-- Python's `c in s` for a single character. -/
def strContainsChar (s : String) (c : Char) : Bool :=
  s.data.contains c

/-- The recipient-indicator scan in `SaleOrder._is_outgoing_external_message`:
addressees present, or a sender string containing a `@`, or a body
containing `To:` or `@`, or a customer set on the record. -/
def saleOrder_hasRecipientIndicator (recordPartner : Option Partner)
    (m : Message) : Bool :=
  (!m.partner_ids.isEmpty) ||
  (match optStrVal m.email_from with
    | some s => strContainsChar s '@'
    | none => false) ||
  (match optStrVal m.body with
    | some b => strContainsSub b "To:" || strContainsChar b '@'
    | none => false) ||
  recordPartner.isSome

/-- `SaleOrder._is_outgoing_external_message`: authored by the current
user, some recipient indicator anywhere, then any comment (every subtype
path returns `True`) or any email message is accepted. -/
def saleOrder_isOutgoingExternalMessage (recordPartner : Option Partner)
    (u : User) : Option Message → Bool
  | none => false
  | some m =>
    if m.author_id ≠ some u.partner_id then false
    else if ¬ saleOrder_hasRecipientIndicator recordPartner m then false
    else if m.message_type = "comment" then true
    else if m.message_type = "email" then true
    else false

/-- `SaleOrder._get_external_recipients`: addressee identifiers first,
then the record's customer when external, then the `"External Contact"`
placeholder when the message has a sender string. -/
def saleOrder_getExternalRecipients (recordPartner : Option Partner) :
    Option Message → List String
  | none =>
    match recordPartner with
    | some p =>
      if p.user_ids.isEmpty then
        match partnerIdentifier p with
        | some e => [e]
        | none => []
      else []
    | none => []
  | some m =>
    let fromPartners := addresseeIdentifiers m
    if ¬ fromPartners.isEmpty then fromPartners
    else
      let fromCustomer :=
        match recordPartner with
        | some p =>
          if p.user_ids.isEmpty then
            match partnerIdentifier p with
            | some e => [e]
            | none => []
          else []
        | none => []
      if ¬ fromCustomer.isEmpty then fromCustomer
      else if (optStrVal m.email_from).isSome then ["External Contact"]
      else []

/-- `CrmLead._is_outgoing_external_message` (identical in
`HelpdeskTicket`): authored by the current user, non-empty addressee
set, then a comment carrying a subtype or an email message. -/
def crmLead_isOutgoingExternalMessage (u : User) : Option Message → Bool
  | none => false
  | some m =>
    if m.author_id ≠ some u.partner_id then false
    else if m.partner_ids.isEmpty then false
    else if m.message_type = "comment" ∧ m.subtype_id.isSome then true
    else if m.message_type = "email" then true
    else false

/-- `HelpdeskTicket._is_outgoing_external_message` (same text as the
crm.lead copy). -/
def helpdeskTicket_isOutgoingExternalMessage (u : User) :
    Option Message → Bool
  | none => false
  | some m =>
    if m.author_id ≠ some u.partner_id then false
    else if m.partner_ids.isEmpty then false
    else if m.message_type = "comment" ∧ m.subtype_id.isSome then true
    else if m.message_type = "email" then true
    else false

/-- `CrmLead._get_external_recipients`: addressee-based extraction only,
no record-customer and no placeholder fallback. -/
def crmLead_getExternalRecipients : Option Message → List String
  | none => []
  | some m =>
    if m.partner_ids.isEmpty then []
    else addresseeIdentifiers m

/-- `HelpdeskTicket._get_external_recipients` (same text as the
crm.lead copy). -/
def helpdeskTicket_getExternalRecipients : Option Message → List String
  | none => []
  | some m =>
    if m.partner_ids.isEmpty then []
    else addresseeIdentifiers m

/-- `SaleOrder._maybe_create_email_activity`: the gate chain and the
best-effort activity creation, as a list of performed effects (or the
escaping exception). -/
def saleOrder_maybeCreate (env : Env) : Except ErrKind (List Effect) :=
  if env.ctxSkip then .ok []
  else
    match env.superMessage with
    | none => .ok []
    | some m =>
      match env.configParam with
      | .error e =>
        if e = ErrKind.accessError then .ok [] else .error e
      | .ok v =>
        if v ≠ "True" then .ok []
        else if ¬ (userInConfiguredGroups env).1 then .ok []
        else if ¬ saleOrder_isOutgoingExternalMessage env.recordPartner env.user
            env.superMessage then .ok []
        else if ¬ hasRequiredPermissionsV18 env then .ok []
        else
          if (saleOrder_getExternalRecipients env.recordPartner
              env.superMessage).isEmpty then .ok []
          else
            .ok (basicTrackingEffects env
              (saleOrder_getExternalRecipients env.recordPartner
                env.superMessage) m)

/-- `SaleOrder.message_post`: host operation first, then the best-effort
tracking, then return the host's message. -/
def saleOrder_messagePost (env : Env) :
    Except ErrKind (Option Message × List Effect) :=
  match saleOrder_maybeCreate env with
  | .error e => .error e
  | .ok eff => .ok (env.superMessage, eff)

/-- `CrmLead._maybe_create_email_activity`. -/
def crmLead_maybeCreate (env : Env) : Except ErrKind (List Effect) :=
  if env.ctxSkip then .ok []
  else
    match env.superMessage with
    | none => .ok []
    | some m =>
      match env.configParam with
      | .error e =>
        if e = ErrKind.accessError then .ok [] else .error e
      | .ok v =>
        if v ≠ "True" then .ok []
        else if ¬ (userInConfiguredGroups env).1 then .ok []
        else if ¬ crmLead_isOutgoingExternalMessage env.user env.superMessage then
          .ok []
        else if ¬ hasRequiredPermissions env then .ok []
        else
          if (crmLead_getExternalRecipients env.superMessage).isEmpty then
            .ok []
          else
            .ok (basicTrackingEffects env
              (crmLead_getExternalRecipients env.superMessage) m)

/-- `CrmLead.message_post`. -/
def crmLead_messagePost (env : Env) :
    Except ErrKind (Option Message × List Effect) :=
  match crmLead_maybeCreate env with
  | .error e => .error e
  | .ok eff => .ok (env.superMessage, eff)

/-- `HelpdeskTicket._maybe_create_email_activity` (same text as the
crm.lead copy, including the legacy three-call permission helper). -/
def helpdeskTicket_maybeCreate (env : Env) : Except ErrKind (List Effect) :=
  if env.ctxSkip then .ok []
  else
    match env.superMessage with
    | none => .ok []
    | some m =>
      match env.configParam with
      | .error e =>
        if e = ErrKind.accessError then .ok [] else .error e
      | .ok v =>
        if v ≠ "True" then .ok []
        else if ¬ (userInConfiguredGroups env).1 then .ok []
        else if ¬ helpdeskTicket_isOutgoingExternalMessage env.user
            env.superMessage then .ok []
        else if ¬ hasRequiredPermissions env then .ok []
        else
          if (helpdeskTicket_getExternalRecipients env.superMessage).isEmpty then
            .ok []
          else
            .ok (basicTrackingEffects env
              (helpdeskTicket_getExternalRecipients env.superMessage) m)

/-- `HelpdeskTicket.message_post`. -/
def helpdeskTicket_messagePost (env : Env) :
    Except ErrKind (Option Message × List Effect) :=
  match helpdeskTicket_maybeCreate env with
  | .error e => .error e
  | .ok eff => .ok (env.superMessage, eff)

/-- `AccountMove._is_outgoing_external_message`: authored by the current
user and posted with `subtype_xmlid == 'mail.mt_comment'`; the message
type itself is not consulted. -/
def accountMove_isOutgoingExternalMessage (u : User)
    (m : Option Message) (subtype_xmlid : Option String) : Bool :=
  match m with
  | none => false
  | some msg =>
    if msg.author_id ≠ some u.partner_id then false
    else subtype_xmlid == some "mail.mt_comment"

/-- `AccountMove._get_external_recipients` (same fallback chain as the
sale.order copy, with `self.partner_id` the invoice customer). -/
def accountMove_getExternalRecipients (recordPartner : Option Partner) :
    Option Message → List String
  | none =>
    match recordPartner with
    | some p =>
      if p.user_ids.isEmpty then
        match partnerIdentifier p with
        | some e => [e]
        | none => []
      else []
    | none => []
  | some m =>
    let fromPartners := addresseeIdentifiers m
    if ¬ fromPartners.isEmpty then fromPartners
    else
      let fromCustomer :=
        match recordPartner with
        | some p =>
          if p.user_ids.isEmpty then
            match partnerIdentifier p with
            | some e => [e]
            | none => []
          else []
        | none => []
      if ¬ fromCustomer.isEmpty then fromCustomer
      else if (optStrVal m.email_from).isSome then ["External Contact"]
      else []

/-- The `try` block of `AccountMove._maybe_create_email_activity`:
resolve the activity type, force `keep_done` on it (sudo) when unset,
create the activity, archive it manually, post the OdooBot note.  An
exception at any step is caught by the surrounding `except Exception`
and the effects already performed remain in place. -/
def accountMove_trackingEffects (env : Env) (emails : List String)
    (m : Message) : List Effect :=
  if env.refErr.isSome then []
  else if ¬ env.keepDone ∧ env.writeKeepDoneErr.isSome then []
  else
    let pre : List Effect :=
      if env.keepDone then [] else [Effect.sudoWriteKeepDone]
    let v : ActivityValues :=
      { summary := buildSummary emails
        note := m.body.getD ""
        user_id := env.user.uid
        res_id := env.selfId }
    if env.createErr.isSome then pre
    else if env.doneErr.isSome then pre ++ [Effect.createActivity v]
    else if env.noteErr.isSome then
      pre ++ [Effect.createActivity v, Effect.writeActivityDone]
    else
      pre ++ [Effect.createActivity v, Effect.writeActivityDone,
        Effect.postNote env.odoobotPartnerId]

/-- `AccountMove._maybe_create_email_activity`: the account_move gate
chain (with the `move_type` gate) and the custom three-step tracking. -/
def accountMove_maybeCreate (env : Env) : Except ErrKind (List Effect) :=
  if env.ctxSkip then .ok []
  else
    match env.superMessage with
    | none => .ok []
    | some m =>
      if ¬ (env.moveType = "out_invoice" ∨ env.moveType = "out_refund") then
        .ok []
      else
        match env.configParam with
        | .error e =>
          if e = ErrKind.accessError then .ok [] else .error e
        | .ok v =>
          if v ≠ "True" then .ok []
          else if ¬ (userInConfiguredGroups env).1 then .ok []
          else if ¬ accountMove_isOutgoingExternalMessage env.user
              env.superMessage env.subtypeXmlid then .ok []
          else if ¬ hasRequiredPermissionsV18 env then .ok []
          else
            if (accountMove_getExternalRecipients env.recordPartner
                env.superMessage).isEmpty then .ok []
            else
              .ok (accountMove_trackingEffects env
                (accountMove_getExternalRecipients env.recordPartner
                  env.superMessage) m)

/-- `AccountMove.message_post`. -/
def accountMove_messagePost (env : Env) :
    Except ErrKind (Option Message × List Effect) :=
  match accountMove_maybeCreate env with
  | .error e => .error e
  | .ok eff => .ok (env.superMessage, eff)

/-- `ResConfigSettings._check_configuration_validity`
(models/res_config_settings.py): raise a `ValidationError` at settings
save when the feature is enabled and no group is selected. -/
def checkConfigurationValidity (enabled : Bool)
    (selectedGroups : List Nat) : Except ErrKind Unit :=
  if enabled ∧ selectedGroups.isEmpty then .error ErrKind.validationError
  else .ok ()

/-- The result of the shared `keep_done` flag on the
`mail.mail_activity_data_email` activity type after the recorded
effects are applied: `Effect.sudoWriteKeepDone` sets it, nothing in the
module clears it. -/
def applyEffectsKeepDone (initial : Bool) (eff : List Effect) : Bool :=
  eff.foldl (fun s e => if e = Effect.sudoWriteKeepDone then true else s)
    initial

/-- The interception result returns the host's message unchanged
whenever it returns at all. -/
def returnsSuper (r : Except ErrKind (Option Message × List Effect))
    (sm : Option Message) : Prop :=
  match r with
  | .error _ => True
  | .ok p => p.1 = sm

/-- No tracking side effect was performed. -/
def noEffects (r : Except ErrKind (Option Message × List Effect)) : Prop :=
  match r with
  | .error _ => True
  | .ok p => p.2 = []

/-- The feature-flag read either succeeds or raises only `AccessError`. -/
def configReadBenign (env : Env) : Prop :=
  ∀ e, env.configParam = Except.error e → e = ErrKind.accessError

/-- Modelled from the spec (section 4.2): the three-rule recipient
resolution chain as the specification words it, used to compare the
per-variant `_get_external_recipients` implementations against it. -/
def spec_resolveExternalRecipients (recordCustomer : Option Partner)
    (m : Option Message) : List String :=
  let rule1 :=
    match m with
    | none => []
    | some msg => addresseeIdentifiers msg
  if ¬ rule1.isEmpty then rule1
  else
    let rule2 :=
      match recordCustomer with
      | some p =>
        if p.user_ids.isEmpty then
          match partnerIdentifier p with
          | some e => [e]
          | none => []
        else []
      | none => []
    if ¬ rule2.isEmpty then rule2
    else
      match m with
      | some msg =>
        if (optStrVal msg.email_from).isSome then ["External Contact"]
        else []
      | none => []

/-- Modelled from the spec (section 4.3 step 5): the single canonical
"outgoing & external" classifier the specification describes — authored
by the current actor and (email-type message, or comment with a
non-empty addressee set). -/
def spec_isOutgoingExternal (u : User) (m : Message) : Bool :=
  (m.author_id == some u.partner_id) &&
    ((m.message_type == "email") ||
      ((m.message_type == "comment") && !m.partner_ids.isEmpty))

/-! Concrete fixtures used by witnesses and counterexamples. -/

/-- An external contact: no linked internal account, with an email. -/
def extPartner : Partner :=
  { pid := 7, email := some "a@x.com", pname := some "Alice", user_ids := [] }

/-- The acting user (partner id 1, member of group 3). -/
def actingUser : User := { uid := 5, partner_id := 1, groups_id := [3] }

/-- An outbound email-type message authored by the acting user with one
external addressee. -/
def emailMsg : Message :=
  { mid := 10, message_type := "email", subtype_id := none,
    email_from := some "me@corp.com", partner_ids := [extPartner],
    author_id := some 1, body := some "hello" }

/-- A fully healthy environment: feature enabled, user enrolled, all
external calls succeed, every gate passes. -/
def baseEnv : Env :=
  { ctxSkip := false
    user := actingUser
    superMessage := some emailMsg
    subtypeXmlid := some "mail.mt_comment"
    selfModel := "sale.order"
    selfId := 42
    recordPartner := some extPartner
    moveType := "out_invoice"
    groupConfigs := [{ group_id := 3, active := true }]
    searchErr := none
    configParam := .ok "True"
    checkWriteRights := .ok ()
    checkWriteRule := .ok ()
    checkActivityCreate := .ok ()
    checkAccessWrite := .ok ()
    refErr := none
    createErr := none
    doneErr := none
    keepDone := false
    writeKeepDoneErr := none
    noteErr := none
    odoobotPartnerId := 2 }

/-- `baseEnv` with the feature-flag read raising a non-`AccessError`
exception. -/
def envCfgErr : Env := { baseEnv with configParam := .error ErrKind.otherError }

/-- `baseEnv` with the recursion-guard context flag set. -/
def envSkip : Env := { baseEnv with ctxSkip := true }

/-- C3: with the `auto_email_activity_skip` context flag set, every
interception point returns the host's message immediately with no
tracking side effect, whatever the rest of the environment. -/
theorem c3_recursion_guard (env : Env) (h : env.ctxSkip = true) :
    mailThread_messagePost env = .ok (env.superMessage, []) ∧
    saleOrder_messagePost env = .ok (env.superMessage, []) ∧
    crmLead_messagePost env = .ok (env.superMessage, []) ∧
    helpdeskTicket_messagePost env = .ok (env.superMessage, []) ∧
    accountMove_messagePost env = .ok (env.superMessage, []) := by
  simp [mailThread_messagePost, saleOrder_messagePost, saleOrder_maybeCreate,
    crmLead_messagePost, crmLead_maybeCreate, helpdeskTicket_messagePost,
    helpdeskTicket_maybeCreate, accountMove_messagePost,
    accountMove_maybeCreate, h]

/-- Witness for C3 at a concrete environment with the guard flag set. -/
theorem c3_recursion_guard_witness :
    envSkip.ctxSkip = true ∧
    (mailThread_messagePost envSkip = .ok (envSkip.superMessage, []) ∧
      saleOrder_messagePost envSkip = .ok (envSkip.superMessage, []) ∧
      crmLead_messagePost envSkip = .ok (envSkip.superMessage, []) ∧
      helpdeskTicket_messagePost envSkip = .ok (envSkip.superMessage, []) ∧
      accountMove_messagePost envSkip = .ok (envSkip.superMessage, [])) :=
  ⟨rfl, c3_recursion_guard envSkip rfl⟩

/-- C1 (amended): whenever an interception point returns at all, the
value it returns is exactly the message produced first by the host's
`message_post`; the tracking logic only appends side effects. -/
theorem c1_host_result_unchanged (env : Env) :
    returnsSuper (mailThread_messagePost env) env.superMessage ∧
    returnsSuper (saleOrder_messagePost env) env.superMessage ∧
    returnsSuper (crmLead_messagePost env) env.superMessage ∧
    returnsSuper (helpdeskTicket_messagePost env) env.superMessage ∧
    returnsSuper (accountMove_messagePost env) env.superMessage := by
  refine ⟨?_, ?_, ?_, ?_, ?_⟩
  · unfold mailThread_messagePost
    repeat' first
      | exact trivial
      | exact rfl
      | split
  · unfold saleOrder_messagePost
    repeat' first
      | exact trivial
      | exact rfl
      | split
  · unfold crmLead_messagePost
    repeat' first
      | exact trivial
      | exact rfl
      | split
  · unfold helpdeskTicket_messagePost
    repeat' first
      | exact trivial
      | exact rfl
      | split
  · unfold accountMove_messagePost
    repeat' first
      | exact trivial
      | exact rfl
      | split

/-- C1 counterexample: when the feature-flag read raises a
non-`AccessError` exception, the interception raises past the caller
and the message created by the host is not returned at all, so the
original claim's "returned to the caller unchanged, for every input"
fails. -/
theorem c1_counterexample :
    envCfgErr.superMessage.isSome = true ∧
    mailThread_messagePost envCfgErr = .error ErrKind.otherError := by
  constructor
  · rfl
  · rfl

/-- When the flag read is benign the mail_thread override cannot raise. -/
theorem mailThread_messagePost_ok (env : Env) (h : configReadBenign env) :
    ∃ eff, mailThread_messagePost env = .ok (env.superMessage, eff) := by
  unfold mailThread_messagePost
  rcases hc : env.configParam with e | v
  · have he := h e hc
    subst he
    simp only [hc]
    repeat' first
      | exact ⟨_, rfl⟩
      | split
  · simp only [hc]
    repeat' first
      | exact ⟨_, rfl⟩
      | split

/-- When the flag read is benign the sale.order gate chain cannot raise. -/
theorem saleOrder_maybeCreate_ok (env : Env) (h : configReadBenign env) :
    ∃ eff, saleOrder_maybeCreate env = .ok eff := by
  unfold saleOrder_maybeCreate
  rcases hc : env.configParam with e | v
  · have he := h e hc
    subst he
    simp only [hc]
    repeat' first
      | exact ⟨_, rfl⟩
      | split
  · simp only [hc]
    repeat' first
      | exact ⟨_, rfl⟩
      | split

/-- When the flag read is benign the crm.lead gate chain cannot raise. -/
theorem crmLead_maybeCreate_ok (env : Env) (h : configReadBenign env) :
    ∃ eff, crmLead_maybeCreate env = .ok eff := by
  unfold crmLead_maybeCreate
  rcases hc : env.configParam with e | v
  · have he := h e hc
    subst he
    simp only [hc]
    repeat' first
      | exact ⟨_, rfl⟩
      | split
  · simp only [hc]
    repeat' first
      | exact ⟨_, rfl⟩
      | split

/-- When the flag read is benign the helpdesk.ticket gate chain cannot
raise. -/
theorem helpdeskTicket_maybeCreate_ok (env : Env) (h : configReadBenign env) :
    ∃ eff, helpdeskTicket_maybeCreate env = .ok eff := by
  unfold helpdeskTicket_maybeCreate
  rcases hc : env.configParam with e | v
  · have he := h e hc
    subst he
    simp only [hc]
    repeat' first
      | exact ⟨_, rfl⟩
      | split
  · simp only [hc]
    repeat' first
      | exact ⟨_, rfl⟩
      | split

/-- When the flag read is benign the account.move gate chain cannot
raise. -/
theorem accountMove_maybeCreate_ok (env : Env) (h : configReadBenign env) :
    ∃ eff, accountMove_maybeCreate env = .ok eff := by
  unfold accountMove_maybeCreate
  rcases hc : env.configParam with e | v
  · have he := h e hc
    subst he
    simp only [hc]
    repeat' first
      | exact ⟨_, rfl⟩
      | split
  · simp only [hc]
    repeat' first
      | exact ⟨_, rfl⟩
      | split

/-- C2 (amended): as long as the feature-flag read raises nothing worse
than an `AccessError`, no exception from the eligibility checks or the
activity-creation steps escapes any interception point and the host's
message is still returned; but the `try/except AccessError` around the
flag read lets every other exception class through (see the
counterexample). -/
theorem c2_exceptions_swallowed (env : Env) (h : configReadBenign env) :
    (∃ eff, mailThread_messagePost env = .ok (env.superMessage, eff)) ∧
    (∃ eff, saleOrder_messagePost env = .ok (env.superMessage, eff)) ∧
    (∃ eff, crmLead_messagePost env = .ok (env.superMessage, eff)) ∧
    (∃ eff, helpdeskTicket_messagePost env = .ok (env.superMessage, eff)) ∧
    (∃ eff, accountMove_messagePost env = .ok (env.superMessage, eff)) := by
  refine ⟨mailThread_messagePost_ok env h, ?_, ?_, ?_, ?_⟩
  · obtain ⟨eff, he⟩ := saleOrder_maybeCreate_ok env h
    exact ⟨eff, by simp [saleOrder_messagePost, he]⟩
  · obtain ⟨eff, he⟩ := crmLead_maybeCreate_ok env h
    exact ⟨eff, by simp [crmLead_messagePost, he]⟩
  · obtain ⟨eff, he⟩ := helpdeskTicket_maybeCreate_ok env h
    exact ⟨eff, by simp [helpdeskTicket_messagePost, he]⟩
  · obtain ⟨eff, he⟩ := accountMove_maybeCreate_ok env h
    exact ⟨eff, by simp [accountMove_messagePost, he]⟩

/-- C2 counterexample: a non-`AccessError` exception raised by the
feature-flag read propagates out of the sale.order interception point
instead of being caught. -/
theorem c2_counterexample :
    saleOrder_messagePost envCfgErr = .error ErrKind.otherError := by rfl

/-- Witness for C2 at a concrete healthy environment. -/
theorem c2_exceptions_swallowed_witness :
    configReadBenign baseEnv ∧
    ((∃ eff, mailThread_messagePost baseEnv = .ok (baseEnv.superMessage, eff)) ∧
      (∃ eff, saleOrder_messagePost baseEnv = .ok (baseEnv.superMessage, eff)) ∧
      (∃ eff, crmLead_messagePost baseEnv = .ok (baseEnv.superMessage, eff)) ∧
      (∃ eff, helpdeskTicket_messagePost baseEnv = .ok (baseEnv.superMessage, eff)) ∧
      (∃ eff, accountMove_messagePost baseEnv = .ok (baseEnv.superMessage, eff))) := by
  have hb : configReadBenign baseEnv := by
    intro e he
    simp [baseEnv] at he
  exact ⟨hb, c2_exceptions_swallowed baseEnv hb⟩

/-- A message authored by a different partner is never classified as
outgoing in any variant. -/
theorem classifiers_false_of_foreign_author (u : User) (m : Message)
    (rp : Option Partner) (st : Option String)
    (ha : m.author_id ≠ some u.partner_id) :
    mailThread_isOutgoingExternalEmail u (some m) = false ∧
    saleOrder_isOutgoingExternalMessage rp u (some m) = false ∧
    crmLead_isOutgoingExternalMessage u (some m) = false ∧
    helpdeskTicket_isOutgoingExternalMessage u (some m) = false ∧
    accountMove_isOutgoingExternalMessage u (some m) st = false := by
  unfold mailThread_isOutgoingExternalEmail saleOrder_isOutgoingExternalMessage
    crmLead_isOutgoingExternalMessage helpdeskTicket_isOutgoingExternalMessage
    accountMove_isOutgoingExternalMessage
  refine ⟨?_, ?_, ?_, ?_, ?_⟩ <;>
    (repeat' first
      | rfl
      | split) <;>
    simp_all

/-- C4: a message whose author is not the acting user's partner is
rejected by every variant's classifier, and no interception point
performs any tracking side effect for it. -/
theorem c4_foreign_author_not_tracked (env : Env) (m : Message)
    (hm : env.superMessage = some m)
    (ha : m.author_id ≠ some env.user.partner_id) :
    (mailThread_isOutgoingExternalEmail env.user (some m) = false ∧
      saleOrder_isOutgoingExternalMessage env.recordPartner env.user (some m) = false ∧
      crmLead_isOutgoingExternalMessage env.user (some m) = false ∧
      helpdeskTicket_isOutgoingExternalMessage env.user (some m) = false ∧
      accountMove_isOutgoingExternalMessage env.user (some m) env.subtypeXmlid = false) ∧
    noEffects (mailThread_messagePost env) ∧
    noEffects (saleOrder_messagePost env) ∧
    noEffects (crmLead_messagePost env) ∧
    noEffects (helpdeskTicket_messagePost env) ∧
    noEffects (accountMove_messagePost env) := by
  have hcls := classifiers_false_of_foreign_author env.user m env.recordPartner
    env.subtypeXmlid ha
  obtain ⟨h1, h2, h3, h4, h5⟩ := hcls
  refine ⟨⟨h1, h2, h3, h4, h5⟩, ?_, ?_, ?_, ?_, ?_⟩
  · unfold mailThread_messagePost
    (repeat' first
      | exact trivial
      | exact rfl
      | split) <;> simp_all
  · cases hmc : saleOrder_maybeCreate env with
    | error e => simp [noEffects, saleOrder_messagePost, hmc]
    | ok eff =>
      have heff : eff = [] := by
        unfold saleOrder_maybeCreate at hmc
        (repeat' split at hmc) <;> simp_all
      simp [noEffects, saleOrder_messagePost, hmc, heff]
  · cases hmc : crmLead_maybeCreate env with
    | error e => simp [noEffects, crmLead_messagePost, hmc]
    | ok eff =>
      have heff : eff = [] := by
        unfold crmLead_maybeCreate at hmc
        (repeat' split at hmc) <;> simp_all
      simp [noEffects, crmLead_messagePost, hmc, heff]
  · cases hmc : helpdeskTicket_maybeCreate env with
    | error e => simp [noEffects, helpdeskTicket_messagePost, hmc]
    | ok eff =>
      have heff : eff = [] := by
        unfold helpdeskTicket_maybeCreate at hmc
        (repeat' split at hmc) <;> simp_all
      simp [noEffects, helpdeskTicket_messagePost, hmc, heff]
  · cases hmc : accountMove_maybeCreate env with
    | error e => simp [noEffects, accountMove_messagePost, hmc]
    | ok eff =>
      have heff : eff = [] := by
        unfold accountMove_maybeCreate at hmc
        (repeat' split at hmc) <;> simp_all
      simp [noEffects, accountMove_messagePost, hmc, heff]

/-- An inbound message: authored by partner 99, not the acting user. -/
def foreignMsg : Message :=
  { mid := 11, message_type := "email", subtype_id := none,
    email_from := some "other@x.com", partner_ids := [extPartner],
    author_id := some 99, body := some "hi" }

/-- `baseEnv` where the host recorded a message by another author. -/
def envForeign : Env := { baseEnv with superMessage := some foreignMsg }

/-- Witness for C4 at a concrete foreign-authored message. -/
theorem c4_foreign_author_not_tracked_witness :
    envForeign.superMessage = some foreignMsg ∧
    foreignMsg.author_id ≠ some envForeign.user.partner_id ∧
    ((mailThread_isOutgoingExternalEmail envForeign.user (some foreignMsg) = false ∧
      saleOrder_isOutgoingExternalMessage envForeign.recordPartner envForeign.user
        (some foreignMsg) = false ∧
      crmLead_isOutgoingExternalMessage envForeign.user (some foreignMsg) = false ∧
      helpdeskTicket_isOutgoingExternalMessage envForeign.user (some foreignMsg) = false ∧
      accountMove_isOutgoingExternalMessage envForeign.user (some foreignMsg)
        envForeign.subtypeXmlid = false) ∧
    noEffects (mailThread_messagePost envForeign) ∧
    noEffects (saleOrder_messagePost envForeign) ∧
    noEffects (crmLead_messagePost envForeign) ∧
    noEffects (helpdeskTicket_messagePost envForeign) ∧
    noEffects (accountMove_messagePost envForeign)) :=
  ⟨rfl, by decide,
    c4_foreign_author_not_tracked envForeign foreignMsg rfl (by decide)⟩

/-- C5: with zero active enrollment rows the membership check returns
false whatever the actor's groups, and an exception while fetching the
rows is caught and yields false with a warning-level log. -/
theorem c5_enrollment_fail_closed (env : Env) :
    ((env.groupConfigs.filter (·.active)).isEmpty = true →
      (userInConfiguredGroups env).1 = false) ∧
    (env.searchErr.isSome = true →
      userInConfiguredGroups env = (false, [LogLevel.warning])) := by
  unfold userInConfiguredGroups
  constructor
  · intro h
    cases hs : env.searchErr <;> simp [hs, h]
  · intro h
    cases hs : env.searchErr <;> simp_all

/-- `baseEnv` with an empty enrollment table on which the fetch also
raises. -/
def envNoEnrollment : Env :=
  { baseEnv with groupConfigs := [], searchErr := some ErrKind.accessError }

/-- Witness for C5 at a concrete environment. -/
theorem c5_enrollment_fail_closed_witness :
    (envNoEnrollment.groupConfigs.filter (·.active)).isEmpty = true ∧
    envNoEnrollment.searchErr.isSome = true ∧
    (userInConfiguredGroups envNoEnrollment).1 = false ∧
    userInConfiguredGroups envNoEnrollment = (false, [LogLevel.warning]) :=
  ⟨rfl, rfl, (c5_enrollment_fail_closed envNoEnrollment).1 rfl,
    (c5_enrollment_fail_closed envNoEnrollment).2 rfl⟩

/-- C6 counterexample: the code prepends `"Email sent to "` to the
joined recipient list, so the summary is not the bare join the claim
states. -/
theorem c6_counterexample :
    buildSummary ["a@x.com", "b@x.com", "c@x.com", "d@x.com"] ≠
      "a@x.com, b@x.com, c@x.com, ..." := by decide

/-- C6 (amended): the summary is `"Email sent to "` followed by the
first three recipients joined with `", "`, with `", ..."` appended
exactly when more than three recipients exist. -/
theorem c6_summary_truncation :
    buildSummary ["a@x.com", "b@x.com", "c@x.com", "d@x.com"] =
      "Email sent to a@x.com, b@x.com, c@x.com, ..." ∧
    buildSummary ["a@x.com"] = "Email sent to a@x.com" ∧
    (∀ l : List String, l.length ≤ 3 →
      buildSummary l = "Email sent to " ++ String.intercalate ", " l) ∧
    (∀ l : List String, 3 < l.length →
      buildSummary l =
        "Email sent to " ++ String.intercalate ", " (l.take 3) ++ ", ...") := by
  refine ⟨by decide, by decide, ?_, ?_⟩
  · intro l h
    unfold buildSummary
    rw [List.take_of_length_le h, if_neg (by omega)]
    simp
  · intro l h
    unfold buildSummary
    rw [if_pos (by omega)]

/-- Witness for C6 at concrete recipient lists. -/
theorem c6_summary_truncation_witness :
    (["a@x.com"] : List String).length ≤ 3 ∧
    buildSummary ["a@x.com"] =
      "Email sent to " ++ String.intercalate ", " ["a@x.com"] ∧
    3 < (["a@x.com", "b@x.com", "c@x.com", "d@x.com"] : List String).length ∧
    buildSummary ["a@x.com", "b@x.com", "c@x.com", "d@x.com"] =
      "Email sent to " ++
        String.intercalate ", "
          ((["a@x.com", "b@x.com", "c@x.com", "d@x.com"] : List String).take 3) ++
        ", ..." :=
  ⟨by decide, c6_summary_truncation.2.2.1 ["a@x.com"] (by decide), by decide,
    c6_summary_truncation.2.2.2 ["a@x.com", "b@x.com", "c@x.com", "d@x.com"]
      (by decide)⟩

/-- A comment with no addressees but a sender string. -/
def c7msg : Message :=
  { mid := 21, message_type := "comment",
    subtype_id := some { sname := some "Note" },
    email_from := some "ext@x.com", partner_ids := [],
    author_id := some 1, body := none }

/-- C7 counterexample: the crm.lead copy of `_get_external_recipients`
has no fallback at all — on a message with no addressees but a sender
string it returns `[]` where the claimed rule chain requires the single
`"External Contact"` placeholder. -/
theorem c7_counterexample :
    (optStrVal c7msg.email_from).isSome = true ∧
    c7msg.partner_ids = [] ∧
    crmLead_getExternalRecipients (some c7msg) = [] ∧
    spec_resolveExternalRecipients none (some c7msg) = ["External Contact"] := by
  decide

/-- C7 (amended): the sale.order and account.move copies implement
exactly the three-rule fallback chain of the spec (addressee
identifiers, then the external record customer, then the
`"External Contact"` placeholder when a sender string exists, else
`[]`); the mail.thread, crm.lead and helpdesk.ticket copies implement
only the addressee rule and return `[]` otherwise.  All are total
functions, so none can raise. -/
theorem c7_recipient_resolution (rp : Option Partner) (m : Option Message) :
    saleOrder_getExternalRecipients rp m = spec_resolveExternalRecipients rp m ∧
    accountMove_getExternalRecipients rp m = spec_resolveExternalRecipients rp m ∧
    crmLead_getExternalRecipients m =
      (match m with | none => [] | some msg => addresseeIdentifiers msg) ∧
    helpdeskTicket_getExternalRecipients m =
      (match m with | none => [] | some msg => addresseeIdentifiers msg) ∧
    mailThread_getExternalRecipients m =
      (match m with | none => [] | some msg => addresseeIdentifiers msg) := by
  refine ⟨?_, ?_, ?_, ?_, ?_⟩
  · cases m with
    | none =>
      unfold saleOrder_getExternalRecipients spec_resolveExternalRecipients
      simp only [List.isEmpty_nil]
      cases rp with
      | none => simp
      | some p =>
        cases hpi : partnerIdentifier p <;>
          by_cases hu : p.user_ids = [] <;>
            simp [hpi, hu, List.isEmpty_iff]
    | some msg =>
      unfold saleOrder_getExternalRecipients spec_resolveExternalRecipients
      rfl
  · cases m with
    | none =>
      unfold accountMove_getExternalRecipients spec_resolveExternalRecipients
      simp only [List.isEmpty_nil]
      cases rp with
      | none => simp
      | some p =>
        cases hpi : partnerIdentifier p <;>
          by_cases hu : p.user_ids = [] <;>
            simp [hpi, hu, List.isEmpty_iff]
    | some msg =>
      unfold accountMove_getExternalRecipients spec_resolveExternalRecipients
      rfl
  · cases m with
    | none => rfl
    | some msg =>
      show (if msg.partner_ids.isEmpty then [] else addresseeIdentifiers msg) =
        addresseeIdentifiers msg
      by_cases h : msg.partner_ids = []
      · simp [h, addresseeIdentifiers]
      · simp [List.isEmpty_iff, h]
  · cases m with
    | none => rfl
    | some msg =>
      show (if msg.partner_ids.isEmpty then [] else addresseeIdentifiers msg) =
        addresseeIdentifiers msg
      by_cases h : msg.partner_ids = []
      · simp [h, addresseeIdentifiers]
      · simp [List.isEmpty_iff, h]
  · cases m with
    | none => rfl
    | some msg =>
      show (if msg.partner_ids.isEmpty then [] else addresseeIdentifiers msg) =
        addresseeIdentifiers msg
      by_cases h : msg.partner_ids = []
      · simp [h, addresseeIdentifiers]
      · simp [List.isEmpty_iff, h]

/-- A comment authored by the acting user with one external addressee. -/
def c8msg : Message :=
  { mid := 22, message_type := "comment",
    subtype_id := some { sname := some "Discussions" },
    email_from := some "me@corp.com", partner_ids := [extPartner],
    author_id := some 1, body := none }

/-- C8 counterexample: the claimed single classifier does not match the
code.  A comment with an addressee authored by the actor is claimed
eligible but rejected by the mail.thread and account.move variants
(the latter posted under the note subtype), while the sale.order
variant accepts a comment with an empty addressee set that the claim
rejects. -/
theorem c8_counterexample :
    spec_isOutgoingExternal actingUser c8msg = true ∧
    mailThread_isOutgoingExternalEmail actingUser (some c8msg) = false ∧
    accountMove_isOutgoingExternalMessage actingUser (some c8msg)
      (some "mail.mt_note") = false ∧
    spec_isOutgoingExternal actingUser c7msg = false ∧
    saleOrder_isOutgoingExternalMessage (some extPartner) actingUser
      (some c7msg) = true := by
  decide

/-- C8 (amended): each record kind has its own classifier; all require
authorship by the acting user, but the message-kind condition differs:
mail.thread accepts only email-type messages with a sender string and a
non-empty addressee set; sale.order accepts any comment or email with
any recipient indicator (addressees, an `@` in the sender or body, a
`To:` in the body, or a customer on the record); crm.lead and
helpdesk.ticket require a non-empty addressee set and a subtyped
comment or an email; account.move only checks that the post used the
`mail.mt_comment` subtype. -/
theorem c8_classifier_per_variant (u : User) (m : Message)
    (rp : Option Partner) (st : Option String) :
    (mailThread_isOutgoingExternalEmail u (some m) = true ↔
      (m.author_id = some u.partner_id ∧ m.message_type = "email" ∧
        (optStrVal m.email_from).isSome = true ∧ m.partner_ids ≠ [])) ∧
    (saleOrder_isOutgoingExternalMessage rp u (some m) = true ↔
      (m.author_id = some u.partner_id ∧
        saleOrder_hasRecipientIndicator rp m = true ∧
        (m.message_type = "comment" ∨ m.message_type = "email"))) ∧
    (crmLead_isOutgoingExternalMessage u (some m) = true ↔
      (m.author_id = some u.partner_id ∧ m.partner_ids ≠ [] ∧
        ((m.message_type = "comment" ∧ m.subtype_id.isSome = true) ∨
          m.message_type = "email"))) ∧
    (helpdeskTicket_isOutgoingExternalMessage u (some m) = true ↔
      (m.author_id = some u.partner_id ∧ m.partner_ids ≠ [] ∧
        ((m.message_type = "comment" ∧ m.subtype_id.isSome = true) ∨
          m.message_type = "email"))) ∧
    (accountMove_isOutgoingExternalMessage u (some m) st = true ↔
      (m.author_id = some u.partner_id ∧ st = some "mail.mt_comment")) := by
  refine ⟨?_, ?_, ?_, ?_, ?_⟩
  · unfold mailThread_isOutgoingExternalEmail
    (repeat' split) <;>
      simp_all [Option.isNone_iff_eq_none, Option.isSome_iff_ne_none,
        List.isEmpty_iff]
  · unfold saleOrder_isOutgoingExternalMessage
    (repeat' split) <;> simp_all
  · unfold crmLead_isOutgoingExternalMessage
    (repeat' split) <;> simp_all [List.isEmpty_iff]
  · unfold helpdeskTicket_isOutgoingExternalMessage
    (repeat' split) <;> simp_all [List.isEmpty_iff]
  · unfold accountMove_isOutgoingExternalMessage
    (repeat' split) <;> simp_all

/-- When the sale.order gate chain raises, the exception is the one the
config-store read raised. -/
theorem saleOrder_maybeCreate_error (env : Env) (e : ErrKind)
    (h : saleOrder_maybeCreate env = .error e) : env.configParam = .error e := by
  unfold saleOrder_maybeCreate at h
  (repeat' split at h) <;> simp_all

/-- When the crm.lead gate chain raises, the exception is the one the
config-store read raised. -/
theorem crmLead_maybeCreate_error (env : Env) (e : ErrKind)
    (h : crmLead_maybeCreate env = .error e) : env.configParam = .error e := by
  unfold crmLead_maybeCreate at h
  (repeat' split at h) <;> simp_all

/-- When the helpdesk.ticket gate chain raises, the exception is the one
the config-store read raised. -/
theorem helpdeskTicket_maybeCreate_error (env : Env) (e : ErrKind)
    (h : helpdeskTicket_maybeCreate env = .error e) : env.configParam = .error e := by
  unfold helpdeskTicket_maybeCreate at h
  (repeat' split at h) <;> simp_all

/-- When the account.move gate chain raises, the exception is the one
the config-store read raised. -/
theorem accountMove_maybeCreate_error (env : Env) (e : ErrKind)
    (h : accountMove_maybeCreate env = .error e) : env.configParam = .error e := by
  unfold accountMove_maybeCreate at h
  (repeat' split at h) <;> simp_all

/-- C9: the settings constraint raises a validation error exactly when
the feature is enabled with zero selected groups, and the message-send
paths never raise it themselves — any exception escaping an
interception point is one raised verbatim by the host's config-store
read, not by this module. -/
theorem c9_validation_only_at_save (enabled : Bool) (groups : List Nat)
    (env : Env) (e : ErrKind) :
    (checkConfigurationValidity enabled groups = .error ErrKind.validationError ↔
      (enabled = true ∧ groups = [])) ∧
    (mailThread_messagePost env = .error e → env.configParam = .error e) ∧
    (saleOrder_messagePost env = .error e → env.configParam = .error e) ∧
    (crmLead_messagePost env = .error e → env.configParam = .error e) ∧
    (helpdeskTicket_messagePost env = .error e → env.configParam = .error e) ∧
    (accountMove_messagePost env = .error e → env.configParam = .error e) := by
  refine ⟨?_, ?_, ?_, ?_, ?_, ?_⟩
  · unfold checkConfigurationValidity
    split <;> simp_all [List.isEmpty_iff]
  · intro h
    unfold mailThread_messagePost at h
    (repeat' split at h) <;> simp_all
  · intro h
    unfold saleOrder_messagePost at h
    rcases hmc : saleOrder_maybeCreate env with e2 | eff
    · rw [hmc] at h
      have hc := saleOrder_maybeCreate_error env e2 hmc
      simp only [Except.error.injEq] at h
      rw [← h]
      exact hc
    · rw [hmc] at h
      simp at h
  · intro h
    unfold crmLead_messagePost at h
    rcases hmc : crmLead_maybeCreate env with e2 | eff
    · rw [hmc] at h
      have hc := crmLead_maybeCreate_error env e2 hmc
      simp only [Except.error.injEq] at h
      rw [← h]
      exact hc
    · rw [hmc] at h
      simp at h
  · intro h
    unfold helpdeskTicket_messagePost at h
    rcases hmc : helpdeskTicket_maybeCreate env with e2 | eff
    · rw [hmc] at h
      have hc := helpdeskTicket_maybeCreate_error env e2 hmc
      simp only [Except.error.injEq] at h
      rw [← h]
      exact hc
    · rw [hmc] at h
      simp at h
  · intro h
    unfold accountMove_messagePost at h
    rcases hmc : accountMove_maybeCreate env with e2 | eff
    · rw [hmc] at h
      have hc := accountMove_maybeCreate_error env e2 hmc
      simp only [Except.error.injEq] at h
      rw [← h]
      exact hc
    · rw [hmc] at h
      simp at h

/-- Witness for C9: the constraint fires on the enabled/no-groups
configuration, and a concrete escaping exception is the config-store's
own. -/
theorem c9_validation_only_at_save_witness :
    (checkConfigurationValidity true [] = .error ErrKind.validationError ↔
      (true = true ∧ ([] : List Nat) = [])) ∧
    mailThread_messagePost envCfgErr = .error ErrKind.otherError ∧
    envCfgErr.configParam = .error ErrKind.otherError :=
  ⟨(c9_validation_only_at_save true [] envCfgErr ErrKind.otherError).1, rfl,
    (c9_validation_only_at_save true [] envCfgErr ErrKind.otherError).2.1 rfl⟩

/-- `keep_done` stays set once some effect set it. -/
theorem applyEffectsKeepDone_true (eff : List Effect) :
    applyEffectsKeepDone true eff = true := by
  induction eff with
  | nil => rfl
  | cons e rest ih =>
    unfold applyEffectsKeepDone at ih ⊢
    simpa using ih

/-- When the account_move tracking block runs with `keep_done` unset and
the first two external calls healthy, the sudo write on the shared
activity type is recorded and leaves the flag set. -/
theorem accountMove_trackingEffects_sudo (env : Env) (emails : List String)
    (m : Message) (hkd : env.keepDone = false) (href : env.refErr = none)
    (hwr : env.writeKeepDoneErr = none) :
    Effect.sudoWriteKeepDone ∈ accountMove_trackingEffects env emails m ∧
    applyEffectsKeepDone env.keepDone
      (accountMove_trackingEffects env emails m) = true := by
  unfold accountMove_trackingEffects
  rw [href, hkd, hwr]
  simp only [Option.isSome_none, Bool.false_eq_true, not_false_eq_true,
    true_and, and_false, if_false, ite_false, ite_true, Bool.not_false]
  constructor
  · split
    · simp
    · split
      · simp
      · split <;> simp
  · (repeat' split) <;> simp [applyEffectsKeepDone, applyEffectsKeepDone_true]

/-- C10: on customer invoices, whenever the tracking step is reached
with the shared email activity type's `keep_done` flag unset, the
orchestrator records a sudo write setting `keep_done = true` on that
shared record, and the flag stays set afterwards — including when any
of the later steps (activity create, archive, OdooBot note) fails,
since nothing rolls the write back. -/
theorem c10_keep_done_sudo_write (env : Env) (m : Message)
    (hskip : env.ctxSkip = false)
    (hm : env.superMessage = some m)
    (hmove : env.moveType = "out_invoice" ∨ env.moveType = "out_refund")
    (hcfg : env.configParam = .ok "True")
    (hgrp : (userInConfiguredGroups env).1 = true)
    (hcls : accountMove_isOutgoingExternalMessage env.user (some m)
      env.subtypeXmlid = true)
    (hperm : hasRequiredPermissionsV18 env = true)
    (hrec : (accountMove_getExternalRecipients env.recordPartner
      (some m)).isEmpty = false)
    (hkd : env.keepDone = false)
    (href : env.refErr = none)
    (hwr : env.writeKeepDoneErr = none) :
    ∃ eff, accountMove_messagePost env = .ok (env.superMessage, eff) ∧
      Effect.sudoWriteKeepDone ∈ eff ∧
      applyEffectsKeepDone env.keepDone eff = true := by
  have hmc : accountMove_maybeCreate env =
      .ok (accountMove_trackingEffects env
        (accountMove_getExternalRecipients env.recordPartner (some m)) m) := by
    unfold accountMove_maybeCreate
    rw [hm]
    rcases hmove with h | h <;>
      simp [hskip, h, hcfg, hgrp, hcls, hperm, hrec]
  have hs := accountMove_trackingEffects_sudo env
    (accountMove_getExternalRecipients env.recordPartner (some m)) m hkd href hwr
  refine ⟨_, ?_, hs.1, hs.2⟩
  unfold accountMove_messagePost
  rw [hmc]

/-- Witness for C10 at the concrete healthy invoice environment. -/
theorem c10_keep_done_sudo_write_witness :
    baseEnv.ctxSkip = false ∧ baseEnv.keepDone = false ∧
    (∃ eff, accountMove_messagePost baseEnv = .ok (baseEnv.superMessage, eff) ∧
      Effect.sudoWriteKeepDone ∈ eff ∧
      applyEffectsKeepDone baseEnv.keepDone eff = true) :=
  ⟨rfl, rfl,
    c10_keep_done_sudo_write baseEnv emailMsg rfl rfl (Or.inl rfl) rfl
      (by decide) (by decide) (by decide) (by decide) rfl rfl rfl⟩
